import Mathlib

/-!
Verification of the per-key trading control loop of `apps/trading/trade_engine.py`
(class `TradeEngine`), shallowly embedded in Lean 4.

Modelling conventions:
* Python floats are modelled as exact rationals (`ℚ`); the claims are about the
  exact arithmetic structure of the formulas, not float rounding.
* Python truthiness on a numeric value `v` (`if v:`) is modelled as `v ≠ 0`;
  on an optional value as `isSome` plus the numeric test where relevant.
* Fallible gateway calls (`_open_leg`, `_close_leg`) are modelled by oracle
  parameters of type `Option LegResult`: `none` is a failed call, and a
  returned `LegResult` may itself carry `price = none` (unknown fill price),
  exactly as the Python functions return `None` or a dict with `price: None`.
* Database state (the set of active arbitrage `Trade` rows for the key) is
  passed in and out of the tick function explicitly as a list.
-/

namespace TradeEngine

/-- Side of the strategy on exchange 1: the `side` column of
`UserSymbolSettings` (choices LONG / SHORT, stored upper-case). -/
inductive Side where
  | LONG
  | SHORT
deriving DecidableEq, Repr

/-- Direction of one leg, the lower-case `"long"` / `"short"` strings stored in
`Trade.exchanges[...]["direction"]`. -/
inductive Dir where
  | long
  | short
deriving DecidableEq, Repr

/-- Side of a market order sent to ccxt (`create_order(..., side, ...)`). -/
inductive OrderSide where
  | buy
  | sell
deriving DecidableEq, Repr

/-- In `_open_leg`: `LONG → buy, SHORT → sell`. -/
def openOrderSide : Dir → OrderSide
  | .long => .buy
  | .short => .sell

/-- In `_close_leg` the order reverses the original position:
`long → sell`, `short → buy`. -/
def closeOrderSide : Dir → OrderSide
  | .long => .sell
  | .short => .buy

/-- Direction of leg 1 as chosen by `_open_arbitrage_position`:
`LONG → "long"`, `SHORT → "short"`. -/
def leg1DirOf : Side → Dir
  | .LONG => .long
  | .SHORT => .short

/-- Direction of leg 2 (always opposite to leg 1). -/
def leg2DirOf : Side → Dir
  | .LONG => .short
  | .SHORT => .long

/-- One market order sent to a venue (exchange id, order side, amount). -/
structure Order where
  exchange : String
  side : OrderSide
  amount : ℚ
deriving DecidableEq, Repr

/-- `UserSymbolSettings` fields read by the engine.  `max_orders` is an
integer column with default `0`; it is modelled as `Option ℤ` so that both a
stored integer and an absent value (`None`) can be considered, because the
engine reads it through the truthiness fallback `settings.max_orders or 1`. -/
structure Settings where
  exchange_1 : String
  exchange_2 : String
  side : Side
  open_spread : ℚ
  close_spread : ℚ
  order_size : ℚ
  max_orders : Option ℤ
  force_stop : Bool
  total_stop : Bool
deriving DecidableEq, Repr

/-- The value `(settings.max_orders or 1)` from the entry gate: Python `or`
returns `1` when `max_orders` is `None` or `0` (both falsy), otherwise the
stored integer. -/
def effMaxOrders : Option ℤ → ℤ
  | none => 1
  | some n => if n = 0 then 1 else n

/-- The dict returned by `_fetch_market_snapshot` (every field may be `None`). -/
structure Snapshot where
  bid : Option ℚ
  ask : Option ℚ
  funding_rate : Option ℚ
  next_funding_time : Option String
  mark_price : Option ℚ
  max_size : Option ℚ
deriving DecidableEq, Repr

/-- The dict returned by `_open_leg` / `_close_leg` on a non-failed call:
`{"price": float | None, "amount": float, "fee": float}`. -/
structure LegResult where
  price : Option ℚ
  amount : ℚ
  fee : ℚ
deriving DecidableEq, Repr

/-- A leg call produced a known fill price: the call did not fail and its
`price` is not `None` (the test `not leg or leg["price"] is None` negated). -/
def legPriceKnown : Option LegResult → Bool
  | none => false
  | some l => l.price.isSome

/-- One leg entry of `Trade.exchanges` as written by `_open_arbitrage_position`. -/
structure LegInfo where
  id : String
  direction : Dir
  entry_price : ℚ
  amount : ℚ
  fee_open : ℚ
deriving DecidableEq, Repr

/-- The `Trade.exchanges` JSON payload: per-leg data plus `entry_spread` and
`notional` at open, and the exit fields written at close. -/
structure ExchangesData where
  exchange_1 : LegInfo
  exchange_2 : LegInfo
  entry_spread : ℚ
  notional : ℚ
  exit_spread : Option ℚ
  exit_price_1 : Option ℚ
  exit_price_2 : Option ℚ
  fee_close : Option ℚ
deriving DecidableEq, Repr

/-- An arbitrage `Trade` row (the fields the engine reads and writes). -/
structure Trade where
  side : Side
  entry_price : ℚ
  amount : ℚ
  pnl : ℚ
  pnl_percent : ℚ
  fees : ℚ
  status : String
  exit_price : Option ℚ
  exchanges : ExchangesData
deriving DecidableEq, Repr

/-- Spread formula of step 4 of `update_state`:
`open_spread = (bid2 - ask1) / ask1 * 100 if ask1 and bid2 else 0`.
The Python condition is the truthiness of both floats, i.e. both nonzero. -/
def openSpreadOf (ask1 bid2 : ℚ) : ℚ :=
  if ask1 ≠ 0 ∧ bid2 ≠ 0 then (bid2 - ask1) / ask1 * 100 else 0

/-- `close_spread = (bid1 - ask2) / ask2 * 100 if bid1 and ask2 else 0`. -/
def closeSpreadOf (bid1 ask2 : ℚ) : ℚ :=
  if bid1 ≠ 0 ∧ ask2 ≠ 0 then (bid1 - ask2) / ask2 * 100 else 0

/-- One bounded tick sequence: `arr.append(x)` followed by
`if len(arr) > 200: arr.pop(0)`. -/
def pushTick {α : Type} (arr : List α) (x : α) : List α :=
  let arr2 := arr ++ [x]
  if arr2.length > 200 then arr2.drop 1 else arr2

/-- The per-key chart store `self.ticks[key]`: three parallel sequences. -/
structure TickStore where
  openTicks : List ℚ
  closeTicks : List ℚ
  realTicks : List ℚ
deriving DecidableEq, Repr

/-- Step 4 of `update_state` on the tick store: append one sample to each of
the three sequences, then cap each at 200 dropping the oldest. -/
def appendTicks (t : TickStore) (os cs rs : ℚ) : TickStore :=
  { openTicks := pushTick t.openTicks os
    closeTicks := pushTick t.closeTicks cs
    realTicks := pushTick t.realTicks rs }

/-- Entry condition of the state machine (`update_state`, entry block):
LONG waits for `open_spread >= open_thr`; SHORT for
`open_spread <= -open_thr if open_thr > 0 else open_spread <= open_thr`. -/
def openCondition (side : Side) (open_spread open_thr : ℚ) : Bool :=
  match side with
  | .LONG => decide (open_spread ≥ open_thr)
  | .SHORT =>
      if open_thr > 0 then decide (open_spread ≤ -open_thr)
      else decide (open_spread ≤ open_thr)

/-- Exit condition (`update_state`, exit block): LONG closes when
`close_spread <= close_thr`; SHORT mirrored:
`close_spread >= -close_thr if close_thr > 0 else close_spread >= close_thr`. -/
def closeCondition (side : Side) (close_spread close_thr : ℚ) : Bool :=
  match side with
  | .LONG => decide (close_spread ≤ close_thr)
  | .SHORT =>
      if close_thr > 0 then decide (close_spread ≥ -close_thr)
      else decide (close_spread ≥ close_thr)

/-- Result of `_open_arbitrage_position`: which market orders were attempted
(in the order the code attempts them), the created `Trade` row if any, and
whether the HALF-OPEN error path (leg 1 filled, leg 2 did not) was taken. -/
structure OpenResult where
  orders : List Order
  trade : Option Trade
  halfOpen : Bool
deriving DecidableEq, Repr

/-- `_open_arbitrage_position(user, symbol, settings, ..., open_spread)`.
`r1`/`r2` are the gateway outcomes of the leg-1 / leg-2 `_open_leg` calls; the
leg-2 call is issued only on the code path that reaches it.  Mirrors the
source: `amount <= 0` returns early; leg 1 failing or having unknown price
aborts before leg 2; leg 2 failing logs HALF-OPEN and returns without
creating a `Trade`; on success a `Trade` with status `"active"` is created. -/
def openArbitragePosition (s : Settings) (r1 r2 : Option LegResult)
    (open_spread : ℚ) : OpenResult :=
  let amount := s.order_size
  if amount ≤ 0 then ⟨[], none, false⟩
  else
    let leg1_dir := leg1DirOf s.side
    let leg2_dir := leg2DirOf s.side
    let o1 : Order := ⟨s.exchange_1, openOrderSide leg1_dir, amount⟩
    match r1 with
    | none => ⟨[o1], none, false⟩
    | some leg1 =>
      match leg1.price with
      | none => ⟨[o1], none, false⟩
      | some entry_price_1 =>
        let o2 : Order := ⟨s.exchange_2, openOrderSide leg2_dir, amount⟩
        match r2 with
        | none => ⟨[o1, o2], none, true⟩
        | some leg2 =>
          match leg2.price with
          | none => ⟨[o1, o2], none, true⟩
          | some entry_price_2 =>
            let total_fee := leg1.fee + leg2.fee
            let notional := (entry_price_1 + entry_price_2) * amount
            let trade : Trade :=
              { side := s.side
                entry_price := (entry_price_1 + entry_price_2) / 2
                amount := amount
                pnl := 0
                pnl_percent := 0
                fees := total_fee
                status := "active"
                exit_price := none
                exchanges :=
                  { exchange_1 :=
                      { id := s.exchange_1, direction := leg1_dir
                        entry_price := entry_price_1, amount := amount
                        fee_open := leg1.fee }
                    exchange_2 :=
                      { id := s.exchange_2, direction := leg2_dir
                        entry_price := entry_price_2, amount := amount
                        fee_open := leg2.fee }
                    entry_spread := open_spread
                    notional := notional
                    exit_spread := none
                    exit_price_1 := none
                    exit_price_2 := none
                    fee_close := none } }
            ⟨[o1, o2], some trade, false⟩

/-- Result of processing one trade inside `_close_all_arbitrage_positions`:
the close orders attempted and the resulting state of the `Trade` row. -/
structure CloseOutcome where
  orders : List Order
  trade : Trade
deriving DecidableEq, Repr

/-- The loop body of `_close_all_arbitrage_positions` for one active trade.
`ex1`/`ex2` are `settings.exchange_1/2`; `r1`/`r2` the `_close_leg` outcomes.
Mirrors the source: directions and amount come from the stored
`Trade.exchanges` data (`amount` falls through Python `or` to `trade.amount`
then `0.0`); `amount <= 0` skips the trade; both close legs are placed before
the success check; if either leg failed or has no price the trade is left
unchanged; otherwise exit prices, fees, PnL and status `"completed"` are
written. -/
def closeTradeStep (ex1 ex2 : String) (t : Trade) (r1 r2 : Option LegResult)
    (close_spread : ℚ) : CloseOutcome :=
  let leg1_dir := t.exchanges.exchange_1.direction
  let leg2_dir := t.exchanges.exchange_2.direction
  let amount :=
    if t.exchanges.exchange_1.amount ≠ 0 then t.exchanges.exchange_1.amount
    else if t.amount ≠ 0 then t.amount else 0
  if amount ≤ 0 then ⟨[], t⟩
  else
    let o1 : Order := ⟨ex1, closeOrderSide leg1_dir, amount⟩
    let o2 : Order := ⟨ex2, closeOrderSide leg2_dir, amount⟩
    match r1, r2 with
    | some c1, some c2 =>
      match c1.price, c2.price with
      | some exit_price_1, some exit_price_2 =>
        let close_fee_total := c1.fee + c2.fee
        let total_fee := t.fees + close_fee_total
        let entry_price_1 :=
          if t.exchanges.exchange_1.entry_price ≠ 0 then
            t.exchanges.exchange_1.entry_price
          else t.entry_price
        let entry_price_2 :=
          if t.exchanges.exchange_2.entry_price ≠ 0 then
            t.exchanges.exchange_2.entry_price
          else t.entry_price
        let notional :=
          if t.exchanges.notional ≠ 0 then t.exchanges.notional
          else (entry_price_1 + entry_price_2) * amount
        let profit1 :=
          if t.side = Side.LONG then (exit_price_1 - entry_price_1) * amount
          else (entry_price_1 - exit_price_1) * amount
        let profit2 :=
          if t.side = Side.LONG then (entry_price_2 - exit_price_2) * amount
          else (exit_price_2 - entry_price_2) * amount
        let pnl_total := profit1 + profit2 - total_fee
        let pnl_percent := if notional > 0 then pnl_total / notional * 100 else 0
        ⟨[o1, o2],
          { t with
              exit_price := some ((exit_price_1 + exit_price_2) / 2)
              fees := total_fee
              pnl := pnl_total
              pnl_percent := pnl_percent
              status := "completed"
              exchanges :=
                { t.exchanges with
                    exit_spread := some close_spread
                    exit_price_1 := some exit_price_1
                    exit_price_2 := some exit_price_2
                    fee_close := some close_fee_total } }⟩
      | _, _ => ⟨[o1, o2], t⟩
    | _, _ => ⟨[o1, o2], t⟩

/-- `_close_all_arbitrage_positions`: iterate `closeTradeStep` over the active
trades, consuming one pair of `_close_leg` oracle outcomes per trade (a
missing oracle entry stands for a failed gateway call). -/
def closeAllArbitragePositions (ex1 ex2 : String) :
    List Trade → List (Option LegResult × Option LegResult) → ℚ →
    List CloseOutcome
  | [], _, _ => []
  | t :: ts, oracle, close_spread =>
      let r := oracle.headD (none, none)
      closeTradeStep ex1 ex2 t r.1 r.2 close_spread ::
        closeAllArbitragePositions ex1 ex2 ts oracle.tail close_spread

/-- The synthetic quotes drawn by `random.uniform` in the fallback branch of
`update_state` (step 3).  Their concrete values are nondeterministic, so they
are inputs of the tick model. -/
structure RandQuotes where
  bid1 : ℚ
  ask1 : ℚ
  bid2 : ℚ
  ask2 : ℚ
deriving DecidableEq, Repr

/-- The guard of the fallback branch in `update_state` step 3: the fetch is
degraded when either snapshot is `None` or any of the four bid/ask quotes is
`None`. -/
def fetchDegraded : Option Snapshot → Option Snapshot → Bool
  | some s1, some s2 =>
      s1.bid.isNone || s2.bid.isNone || s1.ask.isNone || s2.ask.isNone
  | _, _ => true

/-- Quotes selected in step 3 together with the `real_market` flag. -/
structure Quotes where
  bid1 : ℚ
  ask1 : ℚ
  bid2 : ℚ
  ask2 : ℚ
  real_market : Bool
deriving DecidableEq, Repr

/-- Step 3 of `update_state`: use the fetched quotes and set
`real_market = True` when both snapshots carry bid and ask; otherwise fall
back to the random quotes with `real_market = False`. -/
def computeQuotes (snap1 snap2 : Option Snapshot) (rq : RandQuotes) : Quotes :=
  match snap1, snap2 with
  | some s1, some s2 =>
    match s1.bid, s1.ask, s2.bid, s2.ask with
    | some b1, some a1, some b2, some a2 => ⟨b1, a1, b2, a2, true⟩
    | _, _, _, _ => ⟨rq.bid1, rq.ask1, rq.bid2, rq.ask2, false⟩
  | _, _ => ⟨rq.bid1, rq.ask1, rq.bid2, rq.ask2, false⟩

/-- All inputs of one `update_state` call: the settings row (`none` when
`UserSymbolSettings.DoesNotExist`), the two fetch outcomes, the random
fallback quotes, the active arbitrage trades of the key, the tick store, and
the gateway oracles for the leg calls the tick may issue. -/
structure TickInput where
  settings : Option Settings
  snap1 : Option Snapshot
  snap2 : Option Snapshot
  rq : RandQuotes
  trades : List Trade
  ticks : TickStore
  openLeg1 : Option LegResult
  openLeg2 : Option LegResult
  closeOracle : List (Option LegResult × Option LegResult)
deriving Repr

/-- Observable outcome of one `update_state` call. -/
structure TickResult where
  real_market : Bool
  open_spread : ℚ
  close_spread : ℚ
  real_spread : ℚ
  ticks : TickStore
  openInvoked : Bool
  closeInvoked : Bool
  halfOpen : Bool
  orders : List Order
  trades : List Trade
deriving Repr

/-- The early-return paths of `update_state` (missing settings row, missing
exchange id): nothing is computed, appended, or traded. -/
def noopResult (inp : TickInput) : TickResult :=
  ⟨false, 0, 0, 0, inp.ticks, false, false, false, [], inp.trades⟩

/-- The complete guard of the entry block of `update_state`:
`real_market and not force_stop and not total_stop and
active_trades.count() < (settings.max_orders or 1)` together with the
side-dependent `open_condition`. -/
def entryDecision (s : Settings) (real_market : Bool) (activeCount : ℕ)
    (open_spread : ℚ) : Bool :=
  real_market && !s.force_stop && !s.total_stop &&
    decide ((activeCount : ℤ) < effMaxOrders s.max_orders) &&
    openCondition s.side open_spread s.open_spread

/-- The complete guard of the exit block of `update_state`:
`real_market and active_trades.exists()` together with
`close_condition or force_stop or total_stop`. -/
def exitDecision (s : Settings) (real_market tradesNonempty : Bool)
    (close_spread : ℚ) : Bool :=
  real_market && tradesNonempty &&
    (closeCondition s.side close_spread s.close_spread ||
      s.force_stop || s.total_stop)

/-- The body of `update_state` after the early returns, for settings `s`. -/
def updateStateCore (s : Settings) (inp : TickInput) : TickResult :=
  -- step 3: market snapshots with random fallback
  let q := computeQuotes inp.snap1 inp.snap2 inp.rq
  -- step 4: spreads and tick store
  let open_spread := openSpreadOf q.ask1 q.bid2
  let close_spread := closeSpreadOf q.bid1 q.ask2
  let real_spread := if s.side = Side.LONG then open_spread else close_spread
  let ticks1 := appendTicks inp.ticks open_spread close_spread real_spread
  -- step 5: entry
  let openInvoked := entryDecision s q.real_market inp.trades.length open_spread
  let openRes := openArbitragePosition s inp.openLeg1 inp.openLeg2 open_spread
  -- the code re-reads the active trades after an open; the freshly created
  -- trade has status "active", so the refreshed set is the old one plus it
  let trades1 :=
    if openInvoked then inp.trades ++ openRes.trade.toList else inp.trades
  -- step 5: exit
  let closeInvoked := exitDecision s q.real_market (!trades1.isEmpty) close_spread
  let closeOuts : List CloseOutcome :=
    if closeInvoked then
      closeAllArbitragePositions s.exchange_1 s.exchange_2 trades1
        inp.closeOracle close_spread
    else []
  let trades2 :=
    if closeInvoked then (closeOuts.map (·.trade)).filter (·.status = "active")
    else trades1
  let orders :=
    (if openInvoked then openRes.orders else []) ++
      (closeOuts.map (·.orders)).foldr (· ++ ·) []
  { real_market := q.real_market
    open_spread := open_spread
    close_spread := close_spread
    real_spread := real_spread
    ticks := ticks1
    openInvoked := openInvoked
    closeInvoked := closeInvoked
    halfOpen := if openInvoked then openRes.halfOpen else false
    orders := orders
    trades := trades2 }

/-- `update_state(user, symbol)`: returns early when the settings row does not
exist or an exchange id is empty (Python falsy string); otherwise runs the
tick body. -/
def updateState (inp : TickInput) : TickResult :=
  match inp.settings with
  | none => noopResult inp
  | some s =>
      if s.exchange_1 = "" ∨ s.exchange_2 = "" then noopResult inp
      else updateStateCore s inp

/-- The supervisor registry: `self.running` (a dict read through `.get`, so a
missing key behaves as `False`) and the control-loop tasks created so far,
recorded by key in creation order. -/
structure Registry where
  running : String → Bool
  tasks : List String

/-- `self._key(user, symbol)`: the string `f"{user.id}:{symbol.upper()}"`. -/
def mkKey (userId : ℕ) (symbol : String) : String :=
  toString userId ++ ":" ++ symbol.toUpper

/-- `TradeEngine.start(symbol, user)`: the symbol is upper-cased into the key;
if `self.running.get(key)` is truthy the call returns without touching the
registry; otherwise it sets the flag and schedules one `main_loop` task. -/
def startBot (st : Registry) (userId : ℕ) (symbol : String) : Registry :=
  let key := mkKey userId symbol
  if st.running key then st
  else
    { running := fun k => if k = key then true else st.running k
      tasks := st.tasks ++ [key] }

/-- `TradeEngine.stop(symbol, user)`: sets the running flag of the key to
`False`; the task list is untouched (the loop exits on its own). -/
def stopBot (st : Registry) (userId : ℕ) (symbol : String) : Registry :=
  let key := mkKey userId symbol
  { st with running := fun k => if k = key then false else st.running k }

/-- 500 sequential appends of the samples `1, 2, ..., 500` into one (empty)
tick sequence, as in the eviction test of the spec. -/
def iter500 : List ℕ :=
  (List.range 500).foldl (fun arr i => pushTick arr (i + 1)) []

/-- The spec's per-leg profit formula (§4.5), named by the leg's tag: a
long-tagged leg profits when price rises, `(exit - entry) * amount`; a
short-tagged leg profits when price falls, `(entry - exit) * amount`.
Stated from the spec's words, to be compared with the close computation. -/
def legProfitSpec (d : Dir) (entry_price exit_price amount : ℚ) : ℚ :=
  match d with
  | .long => (exit_price - entry_price) * amount
  | .short => (entry_price - exit_price) * amount

/-! ### Concrete inputs used by individual claims -/

/-- Snapshot with only bid/ask populated (funding and limits unavailable). -/
def mkSnap (b a : Option ℚ) : Snapshot := ⟨b, a, none, none, none, none⟩

/-- Empty tick store. -/
def emptyTicks : TickStore := ⟨[], [], []⟩

/-- Settings with `max_orders = 0` (the model default), LONG side, zero
thresholds, order size 1. -/
def settingsC1 : Settings :=
  ⟨"bybit", "binance", .LONG, 0, 0, 1, some 0, false, false⟩

/-- A successful leg fill at price 100 with zero reported fee. -/
def legC1 : LegResult := ⟨some 100, 1, 0⟩

/-- Tick with both snapshots live (`ask_1 = 100`, `bid_2 = 101`), no active
positions, and a gateway that fills both legs. -/
def inpC1 : TickInput :=
  ⟨some settingsC1, some (mkSnap (some 100) (some 100)),
    some (mkSnap (some 101) (some 102)), ⟨0, 0, 0, 0⟩, [], emptyTicks,
    some legC1, some legC1, []⟩

/-- Settings as `settingsC1` but with a positive `max_orders`. -/
def settingsC1w : Settings :=
  ⟨"bybit", "binance", .LONG, 0, 0, 1, some 2, false, false⟩

/-- Tick input for the C1 witness. -/
def inpC1w : TickInput :=
  ⟨some settingsC1w, some (mkSnap (some 100) (some 100)),
    some (mkSnap (some 101) (some 102)), ⟨0, 0, 0, 0⟩, [], emptyTicks,
    some legC1, some legC1, []⟩

/-- Tick whose first snapshot fetch failed (`None`), used by the C2 witness. -/
def inpC2 : TickInput :=
  ⟨some settingsC1, none, some (mkSnap (some 101) (some 102)),
    ⟨100, 101, 100, 101⟩, [], emptyTicks, some legC1, some legC1, []⟩

/-- Snapshot pair where `ask_1 = 100 > 0` and `bid_2` is present but `0`. -/
def inpC3 : TickInput :=
  ⟨some settingsC1, some (mkSnap (some 100) (some 100)),
    some (mkSnap (some 0) (some 102)), ⟨0, 0, 0, 0⟩, [], emptyTicks,
    none, none, []⟩

/-- Live snapshot pair with all four quotes nonzero, for the C3 witness. -/
def inpC3w : TickInput :=
  ⟨some settingsC1, some (mkSnap (some 99) (some 100)),
    some (mkSnap (some 101) (some 102)), ⟨0, 0, 0, 0⟩, [], emptyTicks,
    none, none, []⟩

/-- A successful leg-1 open fill at price 100 (fee 0). -/
def legC4 : LegResult := ⟨some 100, 1, 0⟩

/-- A successful leg-2 open fill at price 101 (fee 0). -/
def legC4b : LegResult := ⟨some 101, 1, 0⟩

/-- Stored leg-1 data of a position opened LONG on exchange 1 at 100. -/
def legInfoA : LegInfo := ⟨"bybit", .long, 100, 1, 0⟩

/-- Stored leg-2 data of the same position: SHORT on exchange 2 at 101. -/
def legInfoB : LegInfo := ⟨"binance", .short, 101, 1, 0⟩

/-- Stored `exchanges` payload of that position
(`notional = (100+101)*1 = 201`). -/
def exDataA : ExchangesData := ⟨legInfoA, legInfoB, 1, 201, none, none, none, none⟩

/-- An active arbitrage trade as created by the open operation. -/
def tradeA : Trade := ⟨.LONG, 201 / 2, 1, 0, 0, 0, "active", none, exDataA⟩

/-- Successful close fills for the two legs at 99 and 100. -/
def closeLegA : LegResult := ⟨some 99, 1, 0⟩

/-- See `closeLegA`. -/
def closeLegB : LegResult := ⟨some 100, 1, 0⟩

/-- Settings with `force_stop = true` (exit must fire regardless of spread). -/
def settingsC6 : Settings :=
  ⟨"bybit", "binance", .LONG, 0, -5, 1, some 1, true, false⟩

/-- Live tick holding one active position under `settingsC6`. -/
def inpC6 : TickInput :=
  ⟨some settingsC6, some (mkSnap (some 100) (some 100)),
    some (mkSnap (some 101) (some 102)), ⟨0, 0, 0, 0⟩, [tradeA], emptyTicks,
    none, none, []⟩

/-- A fresh supervisor registry: no key running, no task created. -/
def regEmpty : Registry := ⟨fun _ => false, []⟩

/-! ### General lemmas about the embedding -/

theorem updateState_eq_core (inp : TickInput) (s : Settings)
    (hs : inp.settings = some s) (h1 : ¬s.exchange_1 = "")
    (h2 : ¬s.exchange_2 = "") : updateState inp = updateStateCore s inp := by
  simp [updateState, hs, h1, h2]

theorem core_real_market (s : Settings) (inp : TickInput) :
    (updateStateCore s inp).real_market =
      (computeQuotes inp.snap1 inp.snap2 inp.rq).real_market := rfl

theorem core_open_spread (s : Settings) (inp : TickInput) :
    (updateStateCore s inp).open_spread =
      openSpreadOf (computeQuotes inp.snap1 inp.snap2 inp.rq).ask1
        (computeQuotes inp.snap1 inp.snap2 inp.rq).bid2 := rfl

theorem core_close_spread (s : Settings) (inp : TickInput) :
    (updateStateCore s inp).close_spread =
      closeSpreadOf (computeQuotes inp.snap1 inp.snap2 inp.rq).bid1
        (computeQuotes inp.snap1 inp.snap2 inp.rq).ask2 := rfl

theorem core_openInvoked (s : Settings) (inp : TickInput) :
    (updateStateCore s inp).openInvoked =
      entryDecision s (updateStateCore s inp).real_market inp.trades.length
        (updateStateCore s inp).open_spread := rfl

theorem core_ticks (s : Settings) (inp : TickInput) :
    (updateStateCore s inp).ticks =
      appendTicks inp.ticks (updateStateCore s inp).open_spread
        (updateStateCore s inp).close_spread
        (updateStateCore s inp).real_spread := rfl

/-- The active-trade list seen by the exit block: the input list, extended by
the freshly opened trade when the entry block fired and created one. -/
theorem core_closeInvoked (s : Settings) (inp : TickInput) :
    (updateStateCore s inp).closeInvoked =
      exitDecision s (updateStateCore s inp).real_market
        (!(if (updateStateCore s inp).openInvoked then
             inp.trades ++
               (openArbitragePosition s inp.openLeg1 inp.openLeg2
                 (updateStateCore s inp).open_spread).trade.toList
           else inp.trades).isEmpty)
        (updateStateCore s inp).close_spread := rfl

theorem computeQuotes_real_market (snap1 snap2 : Option Snapshot)
    (rq : RandQuotes) :
    (computeQuotes snap1 snap2 rq).real_market = !fetchDegraded snap1 snap2 := by
  cases snap1 with
  | none => rfl
  | some s1 =>
    cases snap2 with
    | none => rfl
    | some s2 =>
      obtain ⟨b1, a1, _, _, _, _⟩ := s1
      obtain ⟨b2, a2, _, _, _, _⟩ := s2
      cases b1 <;> cases a1 <;> cases b2 <;> cases a2 <;> rfl

/-- With `real_market = False` every gate of the entry and exit blocks is
closed: nothing is invoked and no order is attempted. -/
theorem core_degraded_no_orders (s : Settings) (inp : TickInput)
    (h : (computeQuotes inp.snap1 inp.snap2 inp.rq).real_market = false) :
    (updateStateCore s inp).openInvoked = false ∧
      (updateStateCore s inp).closeInvoked = false ∧
      (updateStateCore s inp).orders = [] := by
  unfold updateStateCore entryDecision exitDecision
  simp [h]

theorem noop_no_orders (inp : TickInput) :
    (noopResult inp).openInvoked = false ∧ (noopResult inp).closeInvoked = false ∧
      (noopResult inp).orders = [] := ⟨rfl, rfl, rfl⟩

set_option maxRecDepth 8000 in
/-- Folding `pushTick` over a list of samples keeps exactly the last 200
elements of `acc ++ l` (all of them while there are at most 200). -/
theorem foldl_pushTick {α : Type} (l : List α) (acc : List α)
    (h : acc.length ≤ 200) :
    l.foldl pushTick acc = (acc ++ l).drop (acc.length + l.length - 200) := by
  induction l generalizing acc with
  | nil => simp [Nat.sub_eq_zero_of_le h]
  | cons x xs ih =>
      rw [List.foldl_cons]
      by_cases hlen : acc.length + 1 > 200
      · have hpt : pushTick acc x = (acc ++ [x]).drop 1 := by
          simp only [pushTick]
          rw [if_pos (by simp; omega)]
        rw [hpt, ih ((acc ++ [x]).drop 1) (by simp; omega)]
        have hd : ((acc ++ [x]).drop 1) ++ xs = ((acc ++ [x]) ++ xs).drop 1 :=
          (List.drop_append_of_le_length (by simp)).symm
        rw [hd, List.drop_drop, List.append_assoc, List.singleton_append]
        congr 1
        simp
        omega
      · have hpt : pushTick acc x = acc ++ [x] := by
          simp only [pushTick]
          rw [if_neg (by simp; omega)]
        rw [hpt, ih (acc ++ [x]) (by simp; omega)]
        rw [List.append_assoc, List.singleton_append]
        congr 1
        simp
        omega

/-! ### Claims -/

/-- C1 (amended): for every tick with `real_market = true` and both stop
flags clear, the open operation is invoked exactly when (1) the count of
active positions is strictly below the effective limit `max_orders or 1`
(i.e. `max_orders` when that is a nonzero integer, and `1` when it is `0` or
absent), and (2) the side's entry condition holds: for LONG
`open_spread ≥ open_spread_threshold`, for SHORT
`open_spread ≤ -open_spread_threshold` when the threshold is positive and
`open_spread ≤ open_spread_threshold` otherwise. -/
theorem C1_entry_gate (inp : TickInput) (s : Settings)
    (hs : inp.settings = some s)
    (hreal : (updateState inp).real_market = true)
    (hf : s.force_stop = false) (ht : s.total_stop = false) :
    (updateState inp).openInvoked = true ↔
      ((inp.trades.length : ℤ) < effMaxOrders s.max_orders ∧
        (match s.side with
         | Side.LONG => (updateState inp).open_spread ≥ s.open_spread
         | Side.SHORT =>
             if s.open_spread > 0 then
               (updateState inp).open_spread ≤ -s.open_spread
             else (updateState inp).open_spread ≤ s.open_spread)) := by
  by_cases h1 : s.exchange_1 = ""
  · rw [updateState] at hreal
    simp only [hs, h1] at hreal
    simp [noopResult] at hreal
  by_cases h2 : s.exchange_2 = ""
  · rw [updateState] at hreal
    simp only [hs, h2] at hreal
    simp [noopResult] at hreal
  rw [updateState_eq_core inp s hs h1 h2] at hreal ⊢
  rw [core_openInvoked, hreal]
  unfold entryDecision
  rw [hf, ht]
  cases hside : s.side with
  | LONG =>
      simp only [openCondition, hside]
      simp [and_assoc]
  | SHORT =>
      simp only [openCondition, hside]
      by_cases hthr : s.open_spread > 0
      · simp [hthr, and_assoc]
      · simp [hthr, and_assoc]

/-- C1 witness: a live tick with `max_orders = 2`, no active positions,
LONG side, threshold `0`, where the amended gate is instantiated. -/
theorem C1_entry_gate_witness :
    (updateState inpC1w).openInvoked = true ↔
      ((inpC1w.trades.length : ℤ) < effMaxOrders settingsC1w.max_orders ∧
        (updateState inpC1w).open_spread ≥ settingsC1w.open_spread) :=
  C1_entry_gate inpC1w settingsC1w rfl rfl rfl rfl

/-- C1 counterexample: a tick with `real_market = true`, both stop flags
false, `max_orders = 0` and zero active positions.  The claim's gate
`count < max_concurrent_positions` is `0 < 0`, false, so the claim requires
that no open operation be invoked; the code reads the limit through
`settings.max_orders or 1` and invokes the open operation. -/
theorem C1_counterexample :
    (updateState inpC1).real_market = true ∧
      settingsC1.force_stop = false ∧ settingsC1.total_stop = false ∧
      settingsC1.max_orders = some 0 ∧ inpC1.trades.length = 0 ∧
      ¬((inpC1.trades.length : ℤ) < 0) ∧
      (updateState inpC1).openInvoked = true := by
  have hcore := updateState_eq_core inpC1 settingsC1 rfl (by decide) (by decide)
  refine ⟨by rw [hcore]; rfl, rfl, rfl, rfl, rfl, by decide, ?_⟩
  rw [hcore]
  have hos : (updateStateCore settingsC1 inpC1).open_spread = 1 := by
    rw [core_open_spread]
    show openSpreadOf 100 101 = 1
    unfold openSpreadOf
    norm_num
  rw [core_openInvoked, hos]
  have hrm : (updateStateCore settingsC1 inpC1).real_market = true := rfl
  rw [hrm]
  decide

/-- C2: whenever the snapshot fetch is degraded (either venue failed or
returned no usable bid/ask), the tick runs with `real_market = false`, the
open and close operations are not invoked, and no order of any kind is
placed, for every configuration of settings, thresholds, positions and stop
flags. -/
theorem C2_degraded_no_trading (inp : TickInput)
    (h : fetchDegraded inp.snap1 inp.snap2 = true) :
    (updateState inp).real_market = false ∧
      (updateState inp).openInvoked = false ∧
      (updateState inp).closeInvoked = false ∧
      (updateState inp).orders = [] := by
  cases hset : inp.settings with
  | none =>
      rw [updateState]; simp only [hset]
      simp [noopResult]
  | some s =>
    by_cases h1 : s.exchange_1 = ""
    · rw [updateState]; simp only [hset, h1]
      simp [noopResult]
    by_cases h2 : s.exchange_2 = ""
    · rw [updateState]; simp only [hset, h2]
      simp [noopResult]
    rw [updateState_eq_core inp s hset h1 h2]
    have hrm : (computeQuotes inp.snap1 inp.snap2 inp.rq).real_market = false := by
      rw [computeQuotes_real_market, h]; rfl
    exact ⟨hrm, core_degraded_no_orders s inp hrm⟩

/-- C2 witness: the first venue's fetch failed, so the tick places nothing. -/
theorem C2_degraded_no_trading_witness :
    (updateState inpC2).real_market = false ∧
      (updateState inpC2).openInvoked = false ∧
      (updateState inpC2).closeInvoked = false ∧
      (updateState inpC2).orders = [] :=
  C2_degraded_no_trading inpC2 rfl

/-- C3 (amended): on a tick where both snapshots carry all four quotes,
`open_spread = (bid_2 - ask_1)/ask_1 * 100` exactly whenever `ask_1` and
`bid_2` are both nonzero, and `close_spread = (bid_1 - ask_2)/ask_2 * 100`
whenever `bid_1` and `ask_2` are both nonzero; when either value of the
respective pair is zero (in particular a zero or absent ask) the spread is
`0` and no division is attempted. -/
theorem C3_spread_formulas (inp : TickInput) (s : Settings) (sn1 sn2 : Snapshot)
    (b1 a1 b2 a2 : ℚ) (hs : inp.settings = some s)
    (h1 : ¬s.exchange_1 = "") (h2 : ¬s.exchange_2 = "")
    (hsn1 : inp.snap1 = some sn1) (hsn2 : inp.snap2 = some sn2)
    (hb1 : sn1.bid = some b1) (ha1 : sn1.ask = some a1)
    (hb2 : sn2.bid = some b2) (ha2 : sn2.ask = some a2) :
    (updateState inp).open_spread =
        (if a1 ≠ 0 ∧ b2 ≠ 0 then (b2 - a1) / a1 * 100 else 0) ∧
      (updateState inp).close_spread =
        (if b1 ≠ 0 ∧ a2 ≠ 0 then (b1 - a2) / a2 * 100 else 0) := by
  rw [updateState_eq_core inp s hs h1 h2, core_open_spread, core_close_spread]
  have hq : computeQuotes inp.snap1 inp.snap2 inp.rq = ⟨b1, a1, b2, a2, true⟩ := by
    obtain ⟨sb1, sa1, fr1, nt1, mk1, mx1⟩ := sn1
    obtain ⟨sb2, sa2, fr2, nt2, mk2, mx2⟩ := sn2
    dsimp only at hb1 ha1 hb2 ha2
    subst hb1 ha1 hb2 ha2
    rw [hsn1, hsn2]
    rfl
  rw [hq]
  exact ⟨rfl, rfl⟩

/-- C3 witness: live quotes `bid_1 = 99, ask_1 = 100, bid_2 = 101,
ask_2 = 102`, all nonzero. -/
theorem C3_spread_formulas_witness :
    (updateState inpC3w).open_spread =
        (if (100 : ℚ) ≠ 0 ∧ (101 : ℚ) ≠ 0 then ((101 : ℚ) - 100) / 100 * 100 else 0) ∧
      (updateState inpC3w).close_spread =
        (if (99 : ℚ) ≠ 0 ∧ (102 : ℚ) ≠ 0 then ((99 : ℚ) - 102) / 102 * 100 else 0) :=
  C3_spread_formulas inpC3w settingsC1 (mkSnap (some 99) (some 100))
    (mkSnap (some 101) (some 102)) 99 100 101 102 rfl (by decide) (by decide)
    rfl rfl rfl rfl rfl rfl

/-- C3 counterexample: a live tick (`real_market = true`) with
`ask_1 = 100 > 0` and `bid_2` present but equal to `0`.  The claim requires
`open_spread = (bid_2 - ask_1)/ask_1*100 = -100`; the code computes `0`
because its guard is the truthiness (nonzeroness) of `bid_2`, not presence. -/
theorem C3_counterexample :
    (updateState inpC3).real_market = true ∧
      (mkSnap (some 100) (some 100)).ask = some 100 ∧ (100 : ℚ) > 0 ∧
      (mkSnap (some 0) (some 102)).bid = some 0 ∧
      (updateState inpC3).open_spread ≠ ((0 : ℚ) - 100) / 100 * 100 := by
  have hcore := updateState_eq_core inpC3 settingsC1 rfl (by decide) (by decide)
  refine ⟨by rw [hcore]; rfl, rfl, by norm_num, rfl, ?_⟩
  rw [hcore]
  have hos : (updateStateCore settingsC1 inpC3).open_spread = 0 := by
    rw [core_open_spread]
    show openSpreadOf 100 0 = 0
    unfold openSpreadOf
    norm_num
  rw [hos]
  norm_num

/-- C4 (amended): the open operation places leg 1 first and attempts leg 2
only if leg 1 returned a known fill price.  If leg 1 fails (error or unknown
price), the operation aborts with no state change: no leg-2 order and no
Position record.  If leg 1 succeeds and leg 2 fails, the half-open condition
is flagged (logged) but the operation returns without creating any Position
record, and no second leg-2 attempt is made within the operation. -/
theorem C4_open_order (s : Settings) (r1 r2 : Option LegResult)
    (open_spread : ℚ) (ha : 0 < s.order_size) :
    (legPriceKnown r1 = false →
        (openArbitragePosition s r1 r2 open_spread).orders =
            [⟨s.exchange_1, openOrderSide (leg1DirOf s.side), s.order_size⟩] ∧
          (openArbitragePosition s r1 r2 open_spread).trade = none ∧
          (openArbitragePosition s r1 r2 open_spread).halfOpen = false) ∧
      (legPriceKnown r1 = true → legPriceKnown r2 = false →
        (openArbitragePosition s r1 r2 open_spread).orders =
            [⟨s.exchange_1, openOrderSide (leg1DirOf s.side), s.order_size⟩,
              ⟨s.exchange_2, openOrderSide (leg2DirOf s.side), s.order_size⟩] ∧
          (openArbitragePosition s r1 r2 open_spread).trade = none ∧
          (openArbitragePosition s r1 r2 open_spread).halfOpen = true) ∧
      (legPriceKnown r1 = true → legPriceKnown r2 = true →
        (openArbitragePosition s r1 r2 open_spread).orders =
            [⟨s.exchange_1, openOrderSide (leg1DirOf s.side), s.order_size⟩,
              ⟨s.exchange_2, openOrderSide (leg2DirOf s.side), s.order_size⟩] ∧
          (openArbitragePosition s r1 r2 open_spread).trade.isSome = true) := by
  have hgt : ¬s.order_size ≤ 0 := not_le.mpr ha
  unfold openArbitragePosition
  rw [if_neg hgt]
  cases r1 with
  | none => simp [legPriceKnown]
  | some l1 =>
    cases hp1 : l1.price with
    | none => simp [legPriceKnown, hp1]
    | some p1 =>
      cases r2 with
      | none => simp [legPriceKnown, hp1]
      | some l2 =>
        cases hp2 : l2.price with
        | none => simp [legPriceKnown, hp1, hp2]
        | some p2 => simp [legPriceKnown, hp1, hp2]

/-- C4 witness: both legs fill; both orders are placed, leg 1 first, and a
Position record is created. -/
theorem C4_open_order_witness :
    (legPriceKnown (some legC4) = false →
        (openArbitragePosition settingsC1 (some legC4) (some legC4b) 1).orders =
            [⟨settingsC1.exchange_1, openOrderSide (leg1DirOf settingsC1.side),
                settingsC1.order_size⟩] ∧
          (openArbitragePosition settingsC1 (some legC4) (some legC4b) 1).trade = none ∧
          (openArbitragePosition settingsC1 (some legC4) (some legC4b) 1).halfOpen = false) ∧
      (legPriceKnown (some legC4) = true → legPriceKnown (some legC4b) = false →
        (openArbitragePosition settingsC1 (some legC4) (some legC4b) 1).orders =
            [⟨settingsC1.exchange_1, openOrderSide (leg1DirOf settingsC1.side),
                settingsC1.order_size⟩,
              ⟨settingsC1.exchange_2, openOrderSide (leg2DirOf settingsC1.side),
                settingsC1.order_size⟩] ∧
          (openArbitragePosition settingsC1 (some legC4) (some legC4b) 1).trade = none ∧
          (openArbitragePosition settingsC1 (some legC4) (some legC4b) 1).halfOpen = true) ∧
      (legPriceKnown (some legC4) = true → legPriceKnown (some legC4b) = true →
        (openArbitragePosition settingsC1 (some legC4) (some legC4b) 1).orders =
            [⟨settingsC1.exchange_1, openOrderSide (leg1DirOf settingsC1.side),
                settingsC1.order_size⟩,
              ⟨settingsC1.exchange_2, openOrderSide (leg2DirOf settingsC1.side),
                settingsC1.order_size⟩] ∧
          (openArbitragePosition settingsC1 (some legC4) (some legC4b) 1).trade.isSome = true) :=
  C4_open_order settingsC1 (some legC4) (some legC4b) 1 (by decide)

/-- C4 counterexample: leg 1 filled at a known price and leg 2 failed.  The
claim requires a Position recorded as "active" and flagged half-open; the
code takes the half-open error path and creates no Position record at all
(`trade = none`). -/
theorem C4_counterexample :
    legPriceKnown (some legC4) = true ∧
      (openArbitragePosition settingsC1 (some legC4) none 1).halfOpen = true ∧
      (openArbitragePosition settingsC1 (some legC4) none 1).trade = none := by
  decide

/-- C5: when a position is closed with both legs filled, the profit of each
leg follows the spec's tag-dependent sign (long-tagged: `(exit - entry) *
amount`; short-tagged: `(entry - exit) * amount`), the total PnL is
`profit_leg1 + profit_leg2 - total_fees` with `total_fees` the open fees plus
the close fees, and `pnl_percent = pnl_total / notional * 100` with
`notional = (entry_price_1 + entry_price_2) * amount` as recorded at open.
The direction hypotheses state that the stored leg tags match the trade's
side as the open operation records them. -/
theorem C5_pnl (ex1 ex2 : String) (t : Trade) (c1 c2 : LegResult)
    (x1 x2 close_spread : ℚ)
    (hd1 : t.exchanges.exchange_1.direction = leg1DirOf t.side)
    (hd2 : t.exchanges.exchange_2.direction = leg2DirOf t.side)
    (ha : 0 < t.exchanges.exchange_1.amount)
    (he1 : t.exchanges.exchange_1.entry_price ≠ 0)
    (he2 : t.exchanges.exchange_2.entry_price ≠ 0)
    (hn : t.exchanges.notional =
      (t.exchanges.exchange_1.entry_price + t.exchanges.exchange_2.entry_price) *
        t.exchanges.exchange_1.amount)
    (hnpos : 0 < t.exchanges.notional)
    (hp1 : c1.price = some x1) (hp2 : c2.price = some x2) :
    (closeTradeStep ex1 ex2 t (some c1) (some c2) close_spread).trade.pnl =
        legProfitSpec t.exchanges.exchange_1.direction
            t.exchanges.exchange_1.entry_price x1 t.exchanges.exchange_1.amount +
          legProfitSpec t.exchanges.exchange_2.direction
            t.exchanges.exchange_2.entry_price x2 t.exchanges.exchange_1.amount -
          (t.fees + (c1.fee + c2.fee)) ∧
      (closeTradeStep ex1 ex2 t (some c1) (some c2) close_spread).trade.pnl_percent =
        (closeTradeStep ex1 ex2 t (some c1) (some c2) close_spread).trade.pnl /
          ((t.exchanges.exchange_1.entry_price +
              t.exchanges.exchange_2.entry_price) *
            t.exchanges.exchange_1.amount) * 100 ∧
      (closeTradeStep ex1 ex2 t (some c1) (some c2) close_spread).trade.status =
        "completed" := by
  have hane : t.exchanges.exchange_1.amount ≠ 0 := ne_of_gt ha
  have hagt : ¬t.exchanges.exchange_1.amount ≤ 0 := not_le.mpr ha
  have hnne : t.exchanges.notional ≠ 0 := ne_of_gt hnpos
  obtain ⟨p1, am1, f1⟩ := c1
  obtain ⟨p2, am2, f2⟩ := c2
  dsimp only at hp1 hp2
  subst hp1 hp2
  unfold closeTradeStep
  rw [if_pos hane, if_neg hagt]
  dsimp only
  rw [if_pos he1, if_pos he2, if_pos hnne, if_pos hnpos, ← hn]
  cases hside : t.side with
  | LONG =>
      rw [hside] at hd1 hd2
      rw [hd1, hd2]
      simp [legProfitSpec, leg1DirOf, leg2DirOf]
  | SHORT =>
      rw [hside] at hd1 hd2
      rw [hd1, hd2]
      simp [legProfitSpec, leg1DirOf, leg2DirOf]

theorem tradeA_notional :
    tradeA.exchanges.notional =
      (tradeA.exchanges.exchange_1.entry_price +
          tradeA.exchanges.exchange_2.entry_price) *
        tradeA.exchanges.exchange_1.amount := by
  norm_num [tradeA, exDataA, legInfoA, legInfoB]

/-- C5 witness: the position of `tradeA` (entries 100 and 101, amount 1,
notional 201) closed at 99 and 100. -/
theorem C5_pnl_witness :
    (closeTradeStep "bybit" "binance" tradeA (some closeLegA) (some closeLegB)
          0).trade.pnl =
        legProfitSpec tradeA.exchanges.exchange_1.direction
            tradeA.exchanges.exchange_1.entry_price 99
            tradeA.exchanges.exchange_1.amount +
          legProfitSpec tradeA.exchanges.exchange_2.direction
            tradeA.exchanges.exchange_2.entry_price 100
            tradeA.exchanges.exchange_1.amount -
          (tradeA.fees + (closeLegA.fee + closeLegB.fee)) ∧
      (closeTradeStep "bybit" "binance" tradeA (some closeLegA) (some closeLegB)
            0).trade.pnl_percent =
        (closeTradeStep "bybit" "binance" tradeA (some closeLegA) (some closeLegB)
              0).trade.pnl /
          ((tradeA.exchanges.exchange_1.entry_price +
              tradeA.exchanges.exchange_2.entry_price) *
            tradeA.exchanges.exchange_1.amount) * 100 ∧
      (closeTradeStep "bybit" "binance" tradeA (some closeLegA) (some closeLegB)
            0).trade.status = "completed" :=
  C5_pnl "bybit" "binance" tradeA closeLegA closeLegB 99 100 0 rfl rfl
    (by decide) (by decide) (by decide) tradeA_notional (by decide) rfl rfl

/-- C6: for a tick with `real_market = true` and at least one active position
for the key, the close operation is invoked exactly when `force_stop` or
`total_stop` is set or the side's exit condition holds: for LONG
`close_spread ≤ close_spread_threshold`; for SHORT the sign-flipped mirror
(`close_spread ≥ -close_spread_threshold` when the threshold is positive,
`close_spread ≥ close_spread_threshold` otherwise). -/
theorem C6_exit_gate (inp : TickInput) (s : Settings)
    (hs : inp.settings = some s)
    (hreal : (updateState inp).real_market = true)
    (hne : inp.trades ≠ []) :
    (updateState inp).closeInvoked = true ↔
      (s.force_stop = true ∨ s.total_stop = true ∨
        (match s.side with
         | Side.LONG => (updateState inp).close_spread ≤ s.close_spread
         | Side.SHORT =>
             if s.close_spread > 0 then
               (updateState inp).close_spread ≥ -s.close_spread
             else (updateState inp).close_spread ≥ s.close_spread)) := by
  by_cases h1 : s.exchange_1 = ""
  · rw [updateState] at hreal
    simp only [hs, h1] at hreal
    simp [noopResult] at hreal
  by_cases h2 : s.exchange_2 = ""
  · rw [updateState] at hreal
    simp only [hs, h2] at hreal
    simp [noopResult] at hreal
  rw [updateState_eq_core inp s hs h1 h2] at hreal ⊢
  rw [core_closeInvoked, hreal]
  have hne1 :
      (!(if (updateStateCore s inp).openInvoked then
            inp.trades ++
              (openArbitragePosition s inp.openLeg1 inp.openLeg2
                (updateStateCore s inp).open_spread).trade.toList
          else inp.trades).isEmpty) = true := by
    split <;> simp [List.isEmpty_iff, hne]
  rw [hne1]
  unfold exitDecision
  cases hside : s.side with
  | LONG =>
      simp only [closeCondition, hside]
      simp only [Bool.true_and, Bool.or_eq_true, decide_eq_true_eq]
      tauto
  | SHORT =>
      simp only [closeCondition, hside]
      by_cases hthr : s.close_spread > 0
      · rw [if_pos hthr, if_pos hthr]
        simp only [Bool.true_and, Bool.or_eq_true, decide_eq_true_eq]
        tauto
      · rw [if_neg hthr, if_neg hthr]
        simp only [Bool.true_and, Bool.or_eq_true, decide_eq_true_eq]
        tauto

/-- C6 witness: a live tick with one active position and `force_stop = true`;
the gate fires. -/
theorem C6_exit_gate_witness :
    (updateState inpC6).closeInvoked = true ↔
      (settingsC6.force_stop = true ∨ settingsC6.total_stop = true ∨
        (updateState inpC6).close_spread ≤ settingsC6.close_spread) :=
  C6_exit_gate inpC6 settingsC6 rfl rfl (by decide)

/-- C7: the close operation places reversing orders on both legs — order side
`sell` for a stored `long` leg and `buy` for a stored `short` leg — using
each leg's stored direction and stored amount (the legs' stored amounts are
equal, as the open operation records them); and if either leg's close fails
or returns no price, the Trade row is returned entirely unchanged (status
still "active", every recorded field intact), available for a later retry. -/
theorem C7_close_reversing (ex1 ex2 : String) (t : Trade)
    (r1 r2 : Option LegResult) (close_spread : ℚ)
    (ha : 0 < t.exchanges.exchange_1.amount)
    (heq : t.exchanges.exchange_2.amount = t.exchanges.exchange_1.amount) :
    (closeTradeStep ex1 ex2 t r1 r2 close_spread).orders =
        [⟨ex1, closeOrderSide t.exchanges.exchange_1.direction,
            t.exchanges.exchange_1.amount⟩,
          ⟨ex2, closeOrderSide t.exchanges.exchange_2.direction,
            t.exchanges.exchange_2.amount⟩] ∧
      closeOrderSide Dir.long = OrderSide.sell ∧
      closeOrderSide Dir.short = OrderSide.buy ∧
      (¬(legPriceKnown r1 = true ∧ legPriceKnown r2 = true) →
        (closeTradeStep ex1 ex2 t r1 r2 close_spread).trade = t) := by
  have hane : t.exchanges.exchange_1.amount ≠ 0 := ne_of_gt ha
  have hagt : ¬t.exchanges.exchange_1.amount ≤ 0 := not_le.mpr ha
  rw [heq]
  unfold closeTradeStep
  rw [if_pos hane, if_neg hagt]
  cases r1 with
  | none => simp [legPriceKnown, closeOrderSide]
  | some c1 =>
    cases r2 with
    | none => simp [legPriceKnown, closeOrderSide]
    | some c2 =>
      cases hp1 : c1.price with
      | none => simp [legPriceKnown, closeOrderSide, hp1]
      | some x1 =>
        cases hp2 : c2.price with
        | none => simp [legPriceKnown, closeOrderSide, hp1, hp2]
        | some x2 => simp [legPriceKnown, closeOrderSide, hp1, hp2]

/-- C7 witness: closing `tradeA` when leg 1's close call fails: both
reversing orders were attempted and the trade is unchanged. -/
theorem C7_close_reversing_witness :
    (closeTradeStep "bybit" "binance" tradeA none (some closeLegB) 0).orders =
        [⟨"bybit", closeOrderSide tradeA.exchanges.exchange_1.direction,
            tradeA.exchanges.exchange_1.amount⟩,
          ⟨"binance", closeOrderSide tradeA.exchanges.exchange_2.direction,
            tradeA.exchanges.exchange_2.amount⟩] ∧
      closeOrderSide Dir.long = OrderSide.sell ∧
      closeOrderSide Dir.short = OrderSide.buy ∧
      (¬(legPriceKnown (none : Option LegResult) = true ∧
          legPriceKnown (some closeLegB) = true) →
        (closeTradeStep "bybit" "binance" tradeA none (some closeLegB) 0).trade =
          tradeA) :=
  C7_close_reversing "bybit" "binance" tradeA none (some closeLegB) 0
    (by decide) (by decide)

/-- C8: each tick appends exactly one sample to each of the three tick-window
sequences (the tick store becomes `appendTicks` of the previous one with the
three spreads); one `pushTick` grows a sequence of length `n ≤ 200` to
`min (n+1) 200`, so starting from empty no sequence ever exceeds 200
elements; eviction removes the oldest element first (at capacity the result
is `tail ++ [x]`); and after 500 sequential appends of samples `1..500` the
sequence holds 200 elements, the first retained being sample 301. -/
theorem C8_tick_window :
    (∀ (arr : List ℚ) (x : ℚ), arr.length ≤ 200 →
        (pushTick arr x).length = min (arr.length + 1) 200) ∧
      (∀ (arr : List ℚ) (x : ℚ), arr.length ≤ 200 →
        (pushTick arr x).length ≤ 200) ∧
      (∀ (arr : List ℚ) (x : ℚ), arr.length = 200 →
        pushTick arr x = arr.tail ++ [x]) ∧
      iter500.length = 200 ∧ iter500.head? = some 301 ∧
      (∀ (inp : TickInput) (s : Settings), inp.settings = some s →
        ¬s.exchange_1 = "" → ¬s.exchange_2 = "" →
        (updateState inp).ticks =
          appendTicks inp.ticks (updateState inp).open_spread
            (updateState inp).close_spread (updateState inp).real_spread) := by
  have hlen : ∀ (arr : List ℚ) (x : ℚ), arr.length ≤ 200 →
      (pushTick arr x).length = min (arr.length + 1) 200 := by
    intro arr x h
    simp only [pushTick]
    by_cases hc : (arr ++ [x]).length > 200
    · rw [if_pos hc]
      simp at hc ⊢
      omega
    · rw [if_neg hc]
      simp at hc ⊢
      omega
  have hmain : iter500 = ((List.range 500).map (fun i => i + 1)).drop 300 := by
    have h1 : iter500 = ((List.range 500).map (fun i => i + 1)).foldl pushTick [] := by
      unfold iter500
      rw [List.foldl_map]
    rw [h1, foldl_pushTick _ [] (by simp)]
    simp
  refine ⟨hlen, ?_, ?_, ?_, ?_, ?_⟩
  · intro arr x h
    rw [hlen arr x h]
    omega
  · intro arr x h
    simp only [pushTick]
    rw [if_pos (by simp; omega)]
    rw [List.drop_append_of_le_length (by simp [h])]
    rw [List.drop_one]
  · rw [hmain]
    simp
  · rw [hmain, List.head?_eq_getElem?, List.getElem?_drop]
    rw [List.getElem?_map, List.getElem?_range (by norm_num)]
    rfl
  · intro inp s hs h1 h2
    rw [updateState_eq_core inp s hs h1 h2]
    exact core_ticks s inp

/-- C8 witness: one append to an empty sequence, and the tick of `inpC1`
appending its three spreads to the store. -/
theorem C8_tick_window_witness :
    (pushTick ([] : List ℚ) 0).length = min (([] : List ℚ).length + 1) 200 ∧
      (updateState inpC1).ticks =
        appendTicks inpC1.ticks (updateState inpC1).open_spread
          (updateState inpC1).close_spread (updateState inpC1).real_spread :=
  ⟨C8_tick_window.1 [] 0 (by decide),
    C8_tick_window.2.2.2.2.2 inpC1 settingsC1 rfl (by decide) (by decide)⟩

/-- C9: `start` is idempotent.  If the key is already marked running the call
leaves the registry (flag map and task list) completely unchanged and
schedules no task; otherwise it marks the key running and schedules exactly
one new control-loop task, so two consecutive `start` calls for the same key
produce exactly one task for that key. -/
theorem C9_start_idempotent :
    (∀ (st : Registry) (u : ℕ) (sym : String),
        st.running (mkKey u sym) = true → startBot st u sym = st) ∧
      (∀ (st : Registry) (u : ℕ) (sym : String),
        startBot (startBot st u sym) u sym = startBot st u sym) ∧
      (∀ (st : Registry) (u : ℕ) (sym : String),
        st.running (mkKey u sym) = false →
          (startBot st u sym).running (mkKey u sym) = true ∧
            (startBot st u sym).tasks = st.tasks ++ [mkKey u sym]) ∧
      (∀ (st : Registry) (u : ℕ) (sym : String),
        st.running (mkKey u sym) = false →
          (startBot (startBot st u sym) u sym).tasks.count (mkKey u sym) =
            st.tasks.count (mkKey u sym) + 1) := by
  have h1 : ∀ (st : Registry) (u : ℕ) (sym : String),
      st.running (mkKey u sym) = true → startBot st u sym = st := by
    intro st u sym h
    simp [startBot, h]
  have h3 : ∀ (st : Registry) (u : ℕ) (sym : String),
      st.running (mkKey u sym) = false →
        (startBot st u sym).running (mkKey u sym) = true ∧
          (startBot st u sym).tasks = st.tasks ++ [mkKey u sym] := by
    intro st u sym h
    simp [startBot, h]
  refine ⟨h1, ?_, h3, ?_⟩
  · intro st u sym
    by_cases h : st.running (mkKey u sym) = true
    · rw [h1 st u sym h, h1 st u sym h]
    · have hf : st.running (mkKey u sym) = false := by
        cases hv : st.running (mkKey u sym)
        · rfl
        · exact absurd hv h
      exact h1 _ u sym (h3 st u sym hf).1
  · intro st u sym h
    rw [h1 _ u sym (h3 st u sym h).1, (h3 st u sym h).2]
    simp

/-- C9 witness: two consecutive starts of key `1:BTC` on a fresh registry:
the second is a no-op, one task exists for the key. -/
theorem C9_start_idempotent_witness :
    startBot (startBot regEmpty 1 "btc") 1 "btc" = startBot regEmpty 1 "btc" ∧
      (startBot regEmpty 1 "btc").tasks = regEmpty.tasks ++ [mkKey 1 "btc"] ∧
      (startBot (startBot regEmpty 1 "btc") 1 "btc").tasks.count (mkKey 1 "btc") =
        regEmpty.tasks.count (mkKey 1 "btc") + 1 :=
  ⟨C9_start_idempotent.2.1 regEmpty 1 "btc",
    (C9_start_idempotent.2.2.1 regEmpty 1 "btc" rfl).2,
    C9_start_idempotent.2.2.2 regEmpty 1 "btc" rfl⟩

theorem inpC1_open_condition :
    openCondition settingsC1.side (updateState inpC1).open_spread
      settingsC1.open_spread = true := by
  rw [updateState_eq_core inpC1 settingsC1 rfl (by decide) (by decide)]
  have hos : (updateStateCore settingsC1 inpC1).open_spread = 1 := by
    rw [core_open_spread]
    show openSpreadOf 100 101 = 1
    unfold openSpreadOf
    norm_num
  rw [hos]
  decide

/-- C10: when `max_orders` is `0` (the model's default) or absent, entry is
not disabled: the engine reads the limit as `max_orders or 1`, which is `1`,
so with no active position and the entry condition satisfied on a live,
unstopped tick the open operation is still invoked. -/
theorem C10_zero_max_orders (inp : TickInput) (s : Settings)
    (hs : inp.settings = some s)
    (hmo : s.max_orders = none ∨ s.max_orders = some 0)
    (hreal : (updateState inp).real_market = true)
    (hf : s.force_stop = false) (ht : s.total_stop = false)
    (hempty : inp.trades = [])
    (hcond : openCondition s.side (updateState inp).open_spread
        s.open_spread = true) :
    effMaxOrders s.max_orders = 1 ∧ (updateState inp).openInvoked = true := by
  have heff : effMaxOrders s.max_orders = 1 := by
    rcases hmo with h | h <;> rw [h] <;> rfl
  refine ⟨heff, ?_⟩
  by_cases h1 : s.exchange_1 = ""
  · rw [updateState] at hreal
    simp only [hs, h1] at hreal
    simp [noopResult] at hreal
  by_cases h2 : s.exchange_2 = ""
  · rw [updateState] at hreal
    simp only [hs, h2] at hreal
    simp [noopResult] at hreal
  rw [updateState_eq_core inp s hs h1 h2] at hreal hcond ⊢
  rw [core_openInvoked, hreal]
  unfold entryDecision
  rw [hf, ht, hempty, heff, hcond]
  simp

/-- C10 witness: the tick `inpC1` has `max_orders = 0`, no active positions,
live quotes and a satisfied LONG entry condition; the open fires. -/
theorem C10_zero_max_orders_witness :
    effMaxOrders settingsC1.max_orders = 1 ∧
      (updateState inpC1).openInvoked = true :=
  C10_zero_max_orders inpC1 settingsC1 rfl (Or.inr rfl) rfl rfl rfl rfl
    inpC1_open_condition

end TradeEngine
